import Mathlib

/-!
Verification of the session-lifecycle and event-resolution core of the
agent-development-kit-crash-course servers.

The repository contains four FastAPI servers:
  my_yaml_agent/server.py            (YAML-configured agent, POST /run)
  my_yaml_agent/comparison_server.py (POST /direct and POST /runner)
  my_yaml_agent/direct_server.py     (POST /chat, no runner)
  google_course_1/test/agent.py      (POST /run and POST /chat)

This file embeds the request/response records, the session check-then-create
pattern, the event-scan loop, the sentinel substitution and the error folding
of those handlers, and proves or refutes the specified properties.

Python optional values are embedded as Option, Python string truthiness as an
explicit test against the empty string, and the asynchronous agent invocation
as an explicit outcome parameter: either the list of events the stream would
deliver, or the description of the exception it raises.
-/

/-- A content part, mirroring google.genai types.Part: the text field is
optional (a part may carry no text). -/
structure ContentPart where
  text : Option String
deriving DecidableEq, Repr

/-- A content record, mirroring google.genai types.Content: a role and an
ordered list of parts. -/
structure Content where
  role : String
  parts : List ContentPart
deriving DecidableEq, Repr

/-- An event emitted while the agent produces a turn, as the handlers consume
it: an optional content and the boolean reported by is_final_response(). -/
structure Event where
  content : Option Content
  is_final_response : Bool
deriving DecidableEq, Repr

/-- Python truthiness of event.content and event.content.parts: the content
must be present and its parts list non-empty. -/
def contentTruthy : Option Content → Bool
  | none => false
  | some c => !c.parts.isEmpty

/-- The guard of the scan loop in all three runner-based handlers:
event.is_final_response() and event.content and event.content.parts. -/
def event_qualifies (e : Event) : Bool :=
  e.is_final_response && contentTruthy e.content

/-- The expression event.content.parts[0].text, as evaluated when the guard
holds; it is none when the content or parts are missing or the text is null. -/
def first_part_text (e : Event) : Option String :=
  match e.content with
  | some c =>
    match c.parts with
    | p :: _ => p.text
    | [] => none
  | none => none

/-- The scan loop of server.py run_agent, google_course agent.py run_agent and
comparison_server.py chat_with_runner: final_response starts as None; the loop
assigns the first part text of the first qualifying event and breaks. The
result is the value of final_response after the loop. -/
def scanEvents : List Event → Option String
  | [] => none
  | e :: rest => if event_qualifies e then first_part_text e else scanEvents rest

/-- Python string-or coercion x or d: substitutes d when x is None or the
empty string. Used by comparison_server chat_with_runner. -/
def pyStrOr (x : Option String) (d : String) : String :=
  match x with
  | none => d
  | some s => if s = "" then d else s

/-- The message the handlers build from the request:
types.Content(role="user", parts=[types.ContentPart(text=request.message)]). -/
def new_user_message (msg : String) : Content :=
  ⟨"user", [⟨some msg⟩]⟩

/- Session service. The store itself lives in google.adk
(InMemorySessionService), an external collaborator of this repository.
Modelled from the spec: section 4.1 gives its contract; get is a pure lookup
returning absent for an unknown triple, create allocates a fresh session with
an empty transcript and the given state map. State values are embedded as
strings; the handlers only ever pass an empty state. -/

/-- The (application, user, conversation) triple identifying a session. -/
structure SessionKey where
  app_name : String
  user_id : String
  session_id : String
deriving DecidableEq, Repr

/-- A session: its key, the ordered transcript, and the state bag.
Modelled from the spec: section 3 Session. -/
structure Session where
  id : SessionKey
  events : List Content
  state : List (String × String)
deriving DecidableEq, Repr

/-- The in-memory store: an association list from triples to sessions. -/
def SessionService : Type := List (SessionKey × Session)

/-- A freshly created session: empty transcript, given initial state.
Modelled from the spec: section 4.1 create. -/
def newSession (k : SessionKey) (st : List (String × String)) : Session :=
  ⟨k, [], st⟩

/-- get_session: pure lookup, absent indicator when the triple is unknown.
Modelled from the spec: section 4.1 get. -/
def get_session : SessionService → SessionKey → Option Session
  | [], _ => none
  | (k, s) :: rest, key => if k = key then some s else get_session rest key

/-- create_session: allocates a new session under the triple.
Modelled from the spec: section 4.1 create. -/
def create_session (svc : SessionService) (k : SessionKey)
    (st : List (String × String)) : SessionService :=
  (k, newSession k st) :: svc

/-- The check-then-create pattern shared by the three runner-based handlers:
get_session, and create_session with empty state only when the lookup
returned absent. -/
def ensure_session (svc : SessionService) (k : SessionKey) : SessionService :=
  match get_session svc k with
  | some _ => svc
  | none => create_session svc k []

/-- The outcome of one agent invocation as the handler observes it: either
the event stream delivered in order, or an exception whose str() description
is carried. -/
inductive RunOutcome where
  | events : List Event → RunOutcome
  | raises : String → RunOutcome
deriving DecidableEq, Repr

/-- Request body of server.py, comparison_server.py and google_course
agent.py: message and session_id with default "default". -/
structure ChatRequest where
  message : String
  session_id : String
deriving DecidableEq, Repr

/-- Response of server.py and google_course agent.py: response text and
echoed session id. -/
structure ChatResponse where
  response : String
  session_id : String
deriving DecidableEq, Repr

/-- Response of comparison_server.py: response text, has_memory flag and
approach tag; it has no session id field. -/
structure CompChatResponse where
  response : String
  has_memory : Bool
  approach : String
deriving DecidableEq, Repr

/-- Request body of direct_server.py: only the message field. -/
structure DirectChatRequest where
  message : String
deriving DecidableEq, Repr

/-- Response of direct_server.py: only the response field. -/
structure DirectChatResponse where
  response : String
deriving DecidableEq, Repr

/-- POST /run of my_yaml_agent/server.py. The app name comes from the YAML
configuration at startup and is a parameter here; the user id is the literal
"default_user". The try block covers session management, message construction
and the event loop; the except clause folds any exception into an
"Error: " response, echoing the request session id in both branches. On the
events branch the loop result is substituted by "No response generated"
exactly when final_response is None. -/
def server_run_agent (app_name : String) (svc : SessionService)
    (req : ChatRequest) (outcome : RunOutcome) : ChatResponse × SessionService :=
  let svc1 := ensure_session svc ⟨app_name, "default_user", req.session_id⟩
  match outcome with
  | RunOutcome.events evs =>
    (⟨Option.getD (scanEvents evs) "No response generated", req.session_id⟩, svc1)
  | RunOutcome.raises desc =>
    (⟨"Error: " ++ desc, req.session_id⟩, svc1)

/-- POST /run of google_course_1/test/agent.py: the same logic with the app
name fixed to "FastAPI_Agent". -/
def google_run_agent (svc : SessionService) (req : ChatRequest)
    (outcome : RunOutcome) : ChatResponse × SessionService :=
  let svc1 := ensure_session svc ⟨"FastAPI_Agent", "default_user", req.session_id⟩
  match outcome with
  | RunOutcome.events evs =>
    (⟨Option.getD (scanEvents evs) "No response generated", req.session_id⟩, svc1)
  | RunOutcome.raises desc =>
    (⟨"Error: " ++ desc, req.session_id⟩, svc1)

/-- POST /chat of google_course_1/test/agent.py: return await run_agent(request). -/
def chat (svc : SessionService) (req : ChatRequest)
    (outcome : RunOutcome) : ChatResponse × SessionService :=
  google_run_agent svc req outcome

/-- POST /runner of my_yaml_agent/comparison_server.py: app name
"ComparisonApp", user id "test_user"; the loop result passes through
final_response or "No response", and the envelope statically carries
has_memory = true and approach = "runner_based" on both branches. -/
def comparison_chat_with_runner (svc : SessionService) (req : ChatRequest)
    (outcome : RunOutcome) : CompChatResponse × SessionService :=
  let svc1 := ensure_session svc ⟨"ComparisonApp", "test_user", req.session_id⟩
  match outcome with
  | RunOutcome.events evs =>
    (⟨pyStrOr (scanEvents evs) "No response", true, "runner_based"⟩, svc1)
  | RunOutcome.raises desc =>
    (⟨"Error: " ++ desc, true, "runner_based"⟩, svc1)

/-- The expression response.parts[0].text if response and response.parts else
"No response" of comparison_server.py chat_direct: the value of the Python
variable response_text, which is none exactly when the guard held but the
first part text is null (a value the response model would then reject). -/
def comparison_direct_responseText (resp : Option Content) : Option String :=
  match resp with
  | some c =>
    match c.parts with
    | p :: _ => p.text
    | [] => some "No response"
  | none => some "No response"

/-- POST /direct of my_yaml_agent/comparison_server.py: no session, one
direct agent call whose outcome is either a raised exception or an optional
content; the envelope statically carries has_memory = false and
approach = "direct_agent". The none result stands for the null response text
that the response model rejects before a reply is produced. -/
def comparison_chat_direct (outcome : Except String (Option Content)) :
    Option CompChatResponse :=
  match outcome with
  | Except.error desc => some ⟨"Error: " ++ desc, false, "direct_agent"⟩
  | Except.ok resp =>
    (comparison_direct_responseText resp).map
      (fun t => ⟨t, false, "direct_agent"⟩)

/-- The response_text computation of direct_server.py chat_direct:
response.parts[0].text when response and response.parts are truthy, else the
sentinel "No response generated". -/
def direct_responseText (resp : Option Content) : Option String :=
  match resp with
  | some c =>
    match c.parts with
    | p :: _ => p.text
    | [] => some "No response generated"
  | none => some "No response generated"

/-- POST /chat of my_yaml_agent/direct_server.py: one direct agent call, the
sentinel substitution of direct_responseText, and error folding. -/
def direct_chat_direct (outcome : Except String (Option Content)) :
    Option DirectChatResponse :=
  match outcome with
  | Except.error desc => some ⟨"Error: " ++ desc⟩
  | Except.ok resp => (direct_responseText resp).map (fun t => ⟨t⟩)

/-- A JSON-like value, enough to express the dictionaries the GET endpoints
return and the serialized request and response models. -/
inductive JsonVal where
  | str : String → JsonVal
  | bool : Bool → JsonVal
  | arr : List JsonVal → JsonVal
deriving Repr

/-- Lookup of a key in a JSON object given as a key-value list. -/
def lookupKey : List (String × JsonVal) → String → Option JsonVal
  | [], _ => none
  | (k, v) :: rest, key => if k = key then some v else lookupKey rest key

/-- GET / of my_yaml_agent/server.py; the agent name comes from the YAML
configuration and is a parameter. -/
def server_health_check (agent_name : String) : List (String × JsonVal) :=
  [("status", JsonVal.str "healthy"),
   ("agent", JsonVal.str agent_name),
   ("configured_via", JsonVal.str "YAML")]

/-- GET / of my_yaml_agent/direct_server.py. -/
def direct_health_check : List (String × JsonVal) :=
  [("status", JsonVal.str "healthy"),
   ("agent", JsonVal.str "direct_agent"),
   ("uses_runner", JsonVal.bool false)]

/-- GET / of google_course_1/test/agent.py. -/
def google_health_check : List (String × JsonVal) :=
  [("status", JsonVal.str "healthy"),
   ("agent", JsonVal.str "root_agent")]

/-- GET / of my_yaml_agent/comparison_server.py info(): a usage message and
test instructions; it has no status key and no agent name. -/
def comparison_info : List (String × JsonVal) :=
  [("message", JsonVal.str "Compare /direct vs /runner endpoints"),
   ("test_instructions", JsonVal.arr
     [JsonVal.str "1. POST to /direct with: \x7b\x27message\x27: \x27My name is John\x27\x7d",
      JsonVal.str "2. POST to /direct with: \x7b\x27message\x27: \x27What is my name?\x27\x7d",
      JsonVal.str "3. POST to /runner with: \x7b\x27message\x27: \x27My name is Jane\x27, \x27session_id\x27: \x27test1\x27\x7d",
      JsonVal.str "4. POST to /runner with: \x7b\x27message\x27: \x27What is my name?\x27, \x27session_id\x27: \x27test1\x27\x7d",
      JsonVal.str "Notice: Direct forgets, Runner remembers!"])]

/-- Validation of the request body of server.py, comparison_server.py and
google_course agent.py: message is a required string; session_id is a string
defaulting to "default" when absent. -/
def decode_chat_request (body : List (String × JsonVal)) : Option ChatRequest :=
  match lookupKey body "message" with
  | some (JsonVal.str m) =>
    match lookupKey body "session_id" with
    | some (JsonVal.str s) => some ⟨m, s⟩
    | some _ => none
    | none => some ⟨m, "default"⟩
  | _ => none

/-- Validation of the request body of direct_server.py: only the message
field exists; any session_id entry is ignored. -/
def decode_direct_chat_request (body : List (String × JsonVal)) :
    Option DirectChatRequest :=
  match lookupKey body "message" with
  | some (JsonVal.str m) => some ⟨m⟩
  | _ => none

/-- Serialization of the ChatResponse model of server.py and google_course
agent.py: exactly its declared fields. -/
def chatResponse_toJson (r : ChatResponse) : List (String × JsonVal) :=
  [("response", JsonVal.str r.response),
   ("session_id", JsonVal.str r.session_id)]

/-- Serialization of the ChatResponse model of comparison_server.py: exactly
its declared fields; there is no session_id field. -/
def compChatResponse_toJson (r : CompChatResponse) : List (String × JsonVal) :=
  [("response", JsonVal.str r.response),
   ("has_memory", JsonVal.bool r.has_memory),
   ("approach", JsonVal.str r.approach)]

/-- Serialization of the ChatResponse model of direct_server.py: only the
response field. -/
def directChatResponse_toJson (r : DirectChatResponse) : List (String × JsonVal) :=
  [("response", JsonVal.str r.response)]

/-- Prepending events that fail the loop guard does not change the scan. -/
theorem scanEvents_append_of_no_qualify (pre rest : List Event)
    (h : ∀ x ∈ pre, event_qualifies x = false) :
    scanEvents (pre ++ rest) = scanEvents rest := by
  induction pre with
  | nil => rfl
  | cons e pre ih =>
    have he : event_qualifies e = false := h e (List.mem_cons_self e pre)
    have hpre : ∀ x ∈ pre, event_qualifies x = false :=
      fun x hx => h x (List.mem_cons_of_mem e hx)
    simp [scanEvents, he, ih hpre]

/-- A scan over events none of which qualifies leaves final_response as None. -/
theorem scanEvents_eq_none_of_no_qualify (evs : List Event)
    (h : ∀ x ∈ evs, event_qualifies x = false) :
    scanEvents evs = none := by
  have := scanEvents_append_of_no_qualify evs [] h
  simpa using this

/-- C1: for every event sequence produced by one agent invocation, the handler
resolves the turn to the first content-part text of the first event that is
flagged final and has non-empty content parts, and it stops consuming the
stream at that event: the loop result over any prefix of non-qualifying
events, the qualifying event, and an arbitrary suffix equals the first part
text of that event and equals the result with the suffix discarded; hence in
all three runner-based handlers no event after the first qualifying final
event can influence the resolved text. -/
theorem c1_first_final_event_resolves (pre post : List Event) (e : Event)
    (hpre : ∀ x ∈ pre, event_qualifies x = false)
    (he : event_qualifies e = true) :
    scanEvents (pre ++ e :: post) = first_part_text e ∧
    scanEvents (pre ++ e :: post) = scanEvents (pre ++ [e]) ∧
    (∀ app svc req,
      (server_run_agent app svc req (RunOutcome.events (pre ++ e :: post))).1 =
      (server_run_agent app svc req (RunOutcome.events (pre ++ [e]))).1) ∧
    (∀ svc req,
      (google_run_agent svc req (RunOutcome.events (pre ++ e :: post))).1 =
      (google_run_agent svc req (RunOutcome.events (pre ++ [e]))).1) ∧
    (∀ svc req,
      (comparison_chat_with_runner svc req (RunOutcome.events (pre ++ e :: post))).1 =
      (comparison_chat_with_runner svc req (RunOutcome.events (pre ++ [e]))).1) := by
  have h1 : scanEvents (pre ++ e :: post) = first_part_text e := by
    rw [scanEvents_append_of_no_qualify pre (e :: post) hpre]
    simp [scanEvents, he]
  have h2 : scanEvents (pre ++ [e]) = first_part_text e := by
    rw [scanEvents_append_of_no_qualify pre [e] hpre]
    simp [scanEvents, he]
  refine ⟨h1, h1.trans h2.symm, ?_, ?_, ?_⟩
  · intro app svc req
    simp [server_run_agent, h1, h2]
  · intro svc req
    simp [google_run_agent, h1, h2]
  · intro svc req
    simp [comparison_chat_with_runner, h1, h2]

/-- C1 witness: a concrete run with one intermediate event, a final event with
text T, and a later event with text U resolves to T. -/
theorem c1_first_final_event_resolves_witness :
    scanEvents
      [⟨some ⟨"model", [⟨some "partialtext"⟩]⟩, false⟩,
       ⟨some ⟨"model", [⟨some "T"⟩]⟩, true⟩,
       ⟨some ⟨"model", [⟨some "U"⟩]⟩, true⟩] = some "T" :=
  (c1_first_final_event_resolves
    [⟨some ⟨"model", [⟨some "partialtext"⟩]⟩, false⟩]
    [⟨some ⟨"model", [⟨some "U"⟩]⟩, true⟩]
    ⟨some ⟨"model", [⟨some "T"⟩]⟩, true⟩
    (by decide) (by decide)).1

/-- C2: for every request and every exception description, each handler folds
the exception into a normal response whose text is the literal prefix
"Error: " concatenated with the description; every handler is a total
function of its inputs, so no exception propagates to the caller. -/
theorem c2_error_folding (app desc : String) (svc : SessionService)
    (req : ChatRequest) :
    (server_run_agent app svc req (RunOutcome.raises desc)).1.response =
      "Error: " ++ desc ∧
    (google_run_agent svc req (RunOutcome.raises desc)).1.response =
      "Error: " ++ desc ∧
    (comparison_chat_with_runner svc req (RunOutcome.raises desc)).1.response =
      "Error: " ++ desc ∧
    comparison_chat_direct (Except.error desc) =
      some ⟨"Error: " ++ desc, false, "direct_agent"⟩ ∧
    direct_chat_direct (Except.error desc) = some ⟨"Error: " ++ desc⟩ :=
  ⟨rfl, rfl, rfl, rfl, rfl⟩

/-- C10: POST /chat of the google_course_1 server delegates to the /run
handler on the same request, so the two endpoints agree on every input. -/
theorem c10_chat_delegates_to_run (svc : SessionService) (req : ChatRequest)
    (outcome : RunOutcome) :
    chat svc req outcome = google_run_agent svc req outcome := rfl

/-- C4: the handlers call create_session only when the preceding get_session
returned absent (the definition of ensure_session): looking up an existing
triple leaves the store unchanged and still mapped to the same session, and
after a create the subsequent get on the same triple returns the created
session. -/
theorem c4_check_then_create (svc : SessionService) (k : SessionKey) :
    (∀ s, get_session svc k = some s →
      ensure_session svc k = svc ∧
      get_session (ensure_session svc k) k = some s) ∧
    (get_session svc k = none →
      ensure_session svc k = create_session svc k [] ∧
      get_session (ensure_session svc k) k = some (newSession k [])) := by
  constructor
  · intro s hs
    have h1 : ensure_session svc k = svc := by
      unfold ensure_session
      rw [hs]
    exact ⟨h1, by rw [h1]; exact hs⟩
  · intro h
    have h1 : ensure_session svc k = create_session svc k [] := by
      unfold ensure_session
      rw [h]
    refine ⟨h1, ?_⟩
    rw [h1]
    simp [create_session, get_session]

/-- C4 witness: on the empty store with the ComparisonApp triple, the lookup
is absent, and after ensure_session the triple maps to the fresh session. -/
theorem c4_check_then_create_witness :
    get_session (ensure_session [] ⟨"ComparisonApp", "test_user", "default"⟩)
      ⟨"ComparisonApp", "test_user", "default"⟩ =
    some (newSession ⟨"ComparisonApp", "test_user", "default"⟩ []) :=
  ((c4_check_then_create [] ⟨"ComparisonApp", "test_user", "default"⟩).2 rfl).2

/-- C3 counterexample: on a concrete request with an event stream carrying no
qualifying final event, the comparison-server /runner handler resolves to
"No response", not the sentinel "No response generated" the claim names for
every variant. -/
theorem c3_counterexample :
    (comparison_chat_with_runner [] ⟨"hi", "default"⟩
      (RunOutcome.events [])).1.response = "No response" ∧
    (comparison_chat_with_runner [] ⟨"hi", "default"⟩
      (RunOutcome.events [])).1.response ≠ "No response generated" := by
  constructor
  · rfl
  · decide

/-- C3 amended: for every event sequence with zero events that are both final
and carry non-empty content parts, the YAML server /run and the google-course
/run handlers resolve to "No response generated", and so does the direct
server /chat when the direct call yields no truthy response; the comparison
variant instead resolves both of its endpoints to the shorter sentinel
"No response". -/
theorem c3_amended_sentinels (evs : List Event)
    (h : ∀ x ∈ evs, event_qualifies x = false) :
    (∀ app svc req,
      (server_run_agent app svc req (RunOutcome.events evs)).1.response =
        "No response generated") ∧
    (∀ svc req,
      (google_run_agent svc req (RunOutcome.events evs)).1.response =
        "No response generated") ∧
    (∀ svc req,
      (comparison_chat_with_runner svc req (RunOutcome.events evs)).1.response =
        "No response") ∧
    direct_chat_direct (Except.ok none) = some ⟨"No response generated"⟩ ∧
    (∀ role, direct_chat_direct (Except.ok (some ⟨role, []⟩)) =
      some ⟨"No response generated"⟩) ∧
    comparison_chat_direct (Except.ok none) =
      some ⟨"No response", false, "direct_agent"⟩ ∧
    (∀ role, comparison_chat_direct (Except.ok (some ⟨role, []⟩)) =
      some ⟨"No response", false, "direct_agent"⟩) := by
  have hs : scanEvents evs = none := scanEvents_eq_none_of_no_qualify evs h
  refine ⟨?_, ?_, ?_, rfl, fun role => rfl, rfl, fun role => rfl⟩
  · intro app svc req
    simp [server_run_agent, hs]
  · intro svc req
    simp [google_run_agent, hs]
  · intro svc req
    simp [comparison_chat_with_runner, hs, pyStrOr]

/-- C3 amended witness: a concrete stream of one non-final event yields the
sentinel "No response generated" on the YAML server and "No response" on the
comparison /runner endpoint. -/
theorem c3_amended_sentinels_witness :
    (server_run_agent "yaml_agent" [] ⟨"hi", "default"⟩
      (RunOutcome.events [⟨some ⟨"model", [⟨some "draft"⟩]⟩, false⟩])).1.response =
      "No response generated" ∧
    (comparison_chat_with_runner [] ⟨"hi", "default"⟩
      (RunOutcome.events [⟨some ⟨"model", [⟨some "draft"⟩]⟩, false⟩])).1.response =
      "No response" :=
  ⟨(c3_amended_sentinels [⟨some ⟨"model", [⟨some "draft"⟩]⟩, false⟩]
      (by decide)).1 "yaml_agent" [] ⟨"hi", "default"⟩,
   (c3_amended_sentinels [⟨some ⟨"model", [⟨some "draft"⟩]⟩, false⟩]
      (by decide)).2.2.1 [] ⟨"hi", "default"⟩⟩

/-- C8: in the comparison server the has_memory and approach fields are
statically fixed per endpoint, on the success and on the error branch alike:
every /runner response has has_memory = true and approach = "runner_based",
and every /direct response has has_memory = false and
approach = "direct_agent". -/
theorem c8_static_comparison_fields :
    (∀ (svc : SessionService) (req : ChatRequest) (outcome : RunOutcome),
      (comparison_chat_with_runner svc req outcome).1.has_memory = true ∧
      (comparison_chat_with_runner svc req outcome).1.approach = "runner_based") ∧
    (∀ (outcome : Except String (Option Content)) (r : CompChatResponse),
      comparison_chat_direct outcome = some r →
      r.has_memory = false ∧ r.approach = "direct_agent") := by
  constructor
  · intro svc req outcome
    cases outcome <;> exact ⟨rfl, rfl⟩
  · intro outcome r hr
    cases outcome with
    | error desc =>
      cases Option.some.inj hr
      exact ⟨rfl, rfl⟩
    | ok resp =>
      simp only [comparison_chat_direct, Option.map_eq_some'] at hr
      obtain ⟨t, _, ht⟩ := hr
      cases ht
      exact ⟨rfl, rfl⟩

/-- C8 witness: concrete /runner and /direct calls carry the fixed fields. -/
theorem c8_static_comparison_fields_witness :
    ((comparison_chat_with_runner [] ⟨"hi", "default"⟩
        (RunOutcome.events [])).1.has_memory = true ∧
      (comparison_chat_with_runner [] ⟨"hi", "default"⟩
        (RunOutcome.events [])).1.approach = "runner_based") ∧
    ((⟨"Error: boom", false, "direct_agent"⟩ : CompChatResponse).has_memory = false ∧
      (⟨"Error: boom", false, "direct_agent"⟩ : CompChatResponse).approach =
        "direct_agent") :=
  ⟨c8_static_comparison_fields.1 [] ⟨"hi", "default"⟩ (RunOutcome.events []),
   c8_static_comparison_fields.2 (Except.error "boom")
     ⟨"Error: boom", false, "direct_agent"⟩ rfl⟩

/-- C9: a qualifying final event whose first part text is the empty string or
null makes the comparison /runner handler answer "No response" through the
truthiness coercion, while the YAML server /run handler substitutes its
sentinel only for the null case and returns the empty final text unchanged. -/
theorem c9_empty_final_text_coercion (pre post : List Event) (e : Event)
    (hpre : ∀ x ∈ pre, event_qualifies x = false)
    (he : event_qualifies e = true) :
    (first_part_text e = some "" ∨ first_part_text e = none →
      ∀ svc req,
        (comparison_chat_with_runner svc req
          (RunOutcome.events (pre ++ e :: post))).1.response = "No response") ∧
    (first_part_text e = some "" →
      ∀ app svc req,
        (server_run_agent app svc req
          (RunOutcome.events (pre ++ e :: post))).1.response = "") ∧
    (first_part_text e = none →
      ∀ app svc req,
        (server_run_agent app svc req
          (RunOutcome.events (pre ++ e :: post))).1.response =
          "No response generated") := by
  have h1 : scanEvents (pre ++ e :: post) = first_part_text e := by
    rw [scanEvents_append_of_no_qualify pre (e :: post) hpre]
    simp [scanEvents, he]
  refine ⟨?_, ?_, ?_⟩
  · intro ht svc req
    rcases ht with ht | ht <;>
      simp [comparison_chat_with_runner, h1, ht, pyStrOr]
  · intro ht app svc req
    simp [server_run_agent, h1, ht]
  · intro ht app svc req
    simp [server_run_agent, h1, ht]

/-- C9 witness: a final event with empty first part text yields "No response"
on the comparison /runner endpoint and the empty string on the YAML /run. -/
theorem c9_empty_final_text_coercion_witness :
    (comparison_chat_with_runner [] ⟨"hi", "default"⟩
      (RunOutcome.events [⟨some ⟨"model", [⟨some ""⟩]⟩, true⟩])).1.response =
      "No response" ∧
    (server_run_agent "yaml_agent" [] ⟨"hi", "default"⟩
      (RunOutcome.events [⟨some ⟨"model", [⟨some ""⟩]⟩, true⟩])).1.response = "" :=
  ⟨(c9_empty_final_text_coercion [] [] ⟨some ⟨"model", [⟨some ""⟩]⟩, true⟩
      (by decide) (by decide)).1 (Or.inl rfl) [] ⟨"hi", "default"⟩,
   (c9_empty_final_text_coercion [] [] ⟨some ⟨"model", [⟨some ""⟩]⟩, true⟩
      (by decide) (by decide)).2.1 rfl "yaml_agent" [] ⟨"hi", "default"⟩⟩

/-- C5 counterexample: on a concrete request, the serialized comparison-server
/runner response has no session_id key at all, so the claim that every variant
echoes the conversation id in its response fails. -/
theorem c5_counterexample :
    lookupKey
      (compChatResponse_toJson
        (comparison_chat_with_runner [] ⟨"hi", "session42"⟩
          (RunOutcome.events [])).1) "session_id" = none ∧
    (compChatResponse_toJson
      (comparison_chat_with_runner [] ⟨"hi", "session42"⟩
        (RunOutcome.events [])).1).map Prod.fst =
      ["response", "has_memory", "approach"] := ⟨rfl, rfl⟩

/-- C5 amended: the YAML server and the google-course server echo the request
session id in their response on the success and on the error branch, and
their serialized response carries exactly the response and session_id fields;
the comparison variant carries exactly response, has_memory and approach and
no conversation id; the direct server carries only the response field. -/
theorem c5_amended_response_envelope (app : String) (svc : SessionService)
    (req : ChatRequest) (outcome : RunOutcome) :
    (server_run_agent app svc req outcome).1.session_id = req.session_id ∧
    (google_run_agent svc req outcome).1.session_id = req.session_id ∧
    (chatResponse_toJson (server_run_agent app svc req outcome).1).map Prod.fst =
      ["response", "session_id"] ∧
    (compChatResponse_toJson
      (comparison_chat_with_runner svc req outcome).1).map Prod.fst =
      ["response", "has_memory", "approach"] ∧
    (∀ r : DirectChatResponse,
      (directChatResponse_toJson r).map Prod.fst = ["response"]) := by
  refine ⟨?_, ?_, ?_, ?_, fun r => rfl⟩ <;> cases outcome <;> rfl

/-- C6 counterexample: the direct-server request model has no conversation id:
validating a body that carries session_id "custom" produces exactly the same
request as validating the body with session_id omitted, so no conversation id
is accepted and nothing defaults to "default" in that variant. -/
theorem c6_counterexample :
    decode_direct_chat_request
      [("message", JsonVal.str "hi"), ("session_id", JsonVal.str "custom")] =
      decode_direct_chat_request [("message", JsonVal.str "hi")] ∧
    decode_direct_chat_request
      [("message", JsonVal.str "hi"), ("session_id", JsonVal.str "custom")] =
      some ⟨"hi"⟩ := ⟨rfl, rfl⟩

/-- C6 amended: the YAML, comparison and google-course request bodies accept
a message and a session id that defaults to the literal "default" when
omitted; the direct-server body accepts only the message and carries no
conversation id. -/
theorem c6_amended_request_defaults (m s : String) :
    decode_chat_request [("message", JsonVal.str m)] = some ⟨m, "default"⟩ ∧
    decode_chat_request
      [("message", JsonVal.str m), ("session_id", JsonVal.str s)] =
      some ⟨m, s⟩ ∧
    decode_direct_chat_request [("message", JsonVal.str m)] = some ⟨m⟩ ∧
    decode_direct_chat_request
      [("message", JsonVal.str m), ("session_id", JsonVal.str s)] =
      some ⟨m⟩ := by
  refine ⟨?_, ?_, rfl, rfl⟩ <;>
    simp [decode_chat_request, lookupKey]

/-- C7 counterexample: the comparison-server GET / handler returns a record
with no status key and no agent key; its keys are exactly message and
test_instructions. -/
theorem c7_counterexample :
    lookupKey comparison_info "status" = none ∧
    lookupKey comparison_info "agent" = none ∧
    comparison_info.map Prod.fst = ["message", "test_instructions"] :=
  ⟨rfl, rfl, rfl⟩

/-- C7 amended: the YAML, direct and google-course GET / health probes return
a record with a status field and the agent name; the comparison server GET /
instead returns a usage message and test instructions. -/
theorem c7_amended_health_probe (name : String) :
    lookupKey (server_health_check name) "status" = some (JsonVal.str "healthy") ∧
    lookupKey (server_health_check name) "agent" = some (JsonVal.str name) ∧
    lookupKey direct_health_check "status" = some (JsonVal.str "healthy") ∧
    lookupKey direct_health_check "agent" = some (JsonVal.str "direct_agent") ∧
    lookupKey google_health_check "status" = some (JsonVal.str "healthy") ∧
    lookupKey google_health_check "agent" = some (JsonVal.str "root_agent") ∧
    comparison_info.map Prod.fst = ["message", "test_instructions"] := by
  refine ⟨?_, ?_, rfl, rfl, rfl, rfl, rfl⟩ <;>
    simp [server_health_check, lookupKey]
